import Mathlib

/-!
Verification of the LLM-backed structured-generation pipeline of the
ResumeBuilder repository (server entry point with the two-tier OpenAI
strategy: `generateWithOpenAI`, `/api/generate`, `/api/refine`).

The embedding models JavaScript runtime values (`Jv`), the platform's
`JSON.parse` / `JSON.stringify` (external to the repository; modelled with
documented simplifications), the prompt builders, the two-tier provider
strategy, the normalization assignments, and the two route handlers.
-/

namespace ResumeBuilder

/-- Model of a JavaScript value as it can occur in a parsed JSON request or
response body: `undefined` models JavaScript `undefined` (the result of reading
an absent object property), the rest mirror the JSON data model. Numbers are
modelled as integers: no claim under verification depends on fractional
values. Object fields are an ordered association list, mirroring JavaScript
property insertion order; objects produced by `JSON.parse` have distinct
keys, and the model does not collapse duplicate keys. -/
inductive Jv where
  | undefined : Jv
  | null : Jv
  | bool : Bool → Jv
  | num : Int → Jv
  | str : String → Jv
  | arr : List Jv → Jv
  | obj : List (String × Jv) → Jv

/-- JavaScript string emptiness, phrased over the character list so that it
evaluates definitionally inside the kernel. -/
def strEmpty (s : String) : Bool := s.toList.isEmpty

/-- The whitespace characters relevant to `String.prototype.trim` (space,
tab, line feed, carriage return, vertical tab, form feed; the exotic
Unicode space characters are omitted from the model and no claim involves
them). -/
def isJsWhitespace (c : Char) : Bool :=
  c = ' ' || c = '\t' || c = '\n' || c = '\r' || c = '\x0b' || c = '\x0c'

/-- Model of `s.trim().length === 0`: a string trims to empty exactly when
every character is whitespace. -/
def isBlankText (s : String) : Bool := s.toList.all isJsWhitespace

/-- JavaScript truthiness: `undefined`, `null`, `false`, `0` and the empty
string are falsy; every object and array (even empty) is truthy. -/
def truthy : Jv → Bool
  | .undefined => false
  | .null => false
  | .bool b => b
  | .num n => n != 0
  | .str s => !strEmpty s
  | .arr _ => true
  | .obj _ => true

/-- First binding of key `k` in an association list of object fields;
`undefined` when the key is absent (JavaScript property read on an object). -/
def lookupField (fs : List (String × Jv)) (k : String) : Jv :=
  match fs with
  | [] => .undefined
  | p :: rest => if p.1 = k then p.2 else lookupField rest k

/-- JavaScript property read `v[k]` for the values that can occur here:
reading a property of a non-object yields `undefined` in the model (reads on
`null`/`undefined` would throw; no modelled code path performs one). -/
def getField (v : Jv) (k : String) : Jv :=
  match v with
  | .obj fs => lookupField fs k
  | _ => .undefined

/-- JavaScript property write on an object: updates the binding in place
when the key exists, otherwise appends it (insertion order). -/
def setField (fs : List (String × Jv)) (k : String) (v : Jv) : List (String × Jv) :=
  match fs with
  | [] => [(k, v)]
  | p :: rest => if p.1 = k then (k, v) :: rest else p :: setField rest k v

/-- Whether an object value has a field named `k` (JavaScript `k in v`). -/
def hasField (v : Jv) (k : String) : Bool :=
  match v with
  | .obj fs => fs.any (fun p => p.1 = k)
  | _ => false

/-! ## Model of the platform JSON functions

`JSON.parse` and `JSON.stringify` are JavaScript runtime builtins, not code
of this repository; they are modelled here executably. Simplifications,
none of which a claim depends on: numbers are integers (no fraction or
exponent forms, and leading zeros are not rejected), string escapes cover
the common cases without the hexadecimal `\u` form, and `jstringify` emits
the compact rendering (the source passes an indent of 2, which only changes
inter-token whitespace in provider-bound prompt text). -/

/-- Left brace character, kept out of string literals. -/
def lbrace : Char := Char.ofNat 123

/-- Right brace character, kept out of string literals. -/
def rbrace : Char := Char.ofNat 125

/-- JSON insignificant whitespace. -/
def isJsonWs (c : Char) : Bool :=
  c = ' ' || c = '\n' || c = '\t' || c = '\r'

/-- Drop leading JSON whitespace. -/
def skipWs : List Char → List Char
  | [] => []
  | c :: cs => if isJsonWs c then skipWs cs else c :: cs

/-- Consume an expected literal character sequence. -/
def expectChars : List Char → List Char → Option (List Char)
  | [], cs => some cs
  | _, [] => none
  | e :: es, c :: cs => if c = e then expectChars es cs else none

/-- Parse the body of a JSON string after the opening quote, returning the
decoded string and the remaining input. -/
def parseStringChars (fuel : Nat) (cs : List Char) : Option (String × List Char) :=
  match fuel, cs with
  | 0, _ => none
  | _, [] => none
  | f + 1, c :: cs =>
    if c = '"' then some ("", cs)
    else if c = '\\' then
      match cs with
      | [] => none
      | e :: cs' =>
        let dec : Option Char :=
          if e = 'n' then some '\n'
          else if e = 't' then some '\t'
          else if e = 'r' then some '\r'
          else if e = '"' then some '"'
          else if e = '\\' then some '\\'
          else if e = '/' then some '/'
          else none
        match dec with
        | none => none
        | some d =>
          match parseStringChars f cs' with
          | none => none
          | some (s, rest) => some (String.singleton d ++ s, rest)
    else
      match parseStringChars f cs with
      | none => none
      | some (s, rest) => some (String.singleton c ++ s, rest)

/-- Digit run to a natural number. -/
def digitsToNat (ds : List Char) : Nat :=
  ds.foldl (fun acc c => acc * 10 + (c.toNat - '0'.toNat)) 0

/-- Parse a JSON integer (optional minus sign, then digits). -/
def parseNumber (cs : List Char) : Option (Int × List Char) :=
  match cs with
  | '-' :: rest =>
    let ds := rest.takeWhile Char.isDigit
    let r := rest.dropWhile Char.isDigit
    if ds.isEmpty then none else some (-(digitsToNat ds : Int), r)
  | _ =>
    let ds := cs.takeWhile Char.isDigit
    let r := cs.dropWhile Char.isDigit
    if ds.isEmpty then none else some ((digitsToNat ds : Int), r)

mutual

/-- Parse one JSON value (fuel-bounded recursion; the top-level entry point
supplies fuel ample for any input of the given length). -/
def parseValue : Nat → List Char → Option (Jv × List Char)
  | 0, _ => none
  | f + 1, cs =>
    match skipWs cs with
    | [] => none
    | c :: rest =>
      if c = '"' then
        match parseStringChars (rest.length + 1) rest with
        | none => none
        | some (s, r) => some (.str s, r)
      else if c = '[' then
        match skipWs rest with
        | ']' :: r2 => some (.arr [], r2)
        | r1 =>
          match parseItems f r1 with
          | none => none
          | some (vs, r2) => some (.arr vs, r2)
      else if c = lbrace then
        match skipWs rest with
        | d :: r2 =>
          if d = rbrace then some (.obj [], r2)
          else
            match parseFields f (d :: r2) with
            | none => none
            | some (flds, r3) => some (.obj flds, r3)
        | [] => none
      else if c = 't' then
        match expectChars ['r', 'u', 'e'] rest with
        | none => none
        | some r => some (.bool true, r)
      else if c = 'f' then
        match expectChars ['a', 'l', 's', 'e'] rest with
        | none => none
        | some r => some (.bool false, r)
      else if c = 'n' then
        match expectChars ['u', 'l', 'l'] rest with
        | none => none
        | some r => some (.null, r)
      else if c = '-' || c.isDigit then
        match parseNumber (c :: rest) with
        | none => none
        | some (n, r) => some (.num n, r)
      else none

/-- Parse the comma-separated items of a non-empty JSON array, up to and
including the closing bracket. -/
def parseItems : Nat → List Char → Option (List Jv × List Char)
  | 0, _ => none
  | f + 1, cs =>
    match parseValue f cs with
    | none => none
    | some (v, r) =>
      match skipWs r with
      | ',' :: r2 =>
        match parseItems f r2 with
        | none => none
        | some (vs, r3) => some (v :: vs, r3)
      | ']' :: r2 => some ([v], r2)
      | _ => none

/-- Parse the comma-separated fields of a non-empty JSON object, up to and
including the closing brace. -/
def parseFields : Nat → List Char → Option (List (String × Jv) × List Char)
  | 0, _ => none
  | f + 1, cs =>
    match skipWs cs with
    | '"' :: r =>
      match parseStringChars (r.length + 1) r with
      | none => none
      | some (k, r2) =>
        match skipWs r2 with
        | ':' :: r3 =>
          match parseValue f r3 with
          | none => none
          | some (v, r4) =>
            match skipWs r4 with
            | ',' :: r5 =>
              match parseFields f r5 with
              | none => none
              | some (flds, r6) => some ((k, v) :: flds, r6)
            | d :: r5 =>
              if d = rbrace then some ([(k, v)], r5) else none
            | [] => none
        | _ => none
    | _ => none

end

/-- Model of the platform `JSON.parse`: `some` on well-formed input (the
whole input must be one JSON value up to whitespace), `none` where
`JSON.parse` throws a `SyntaxError`. -/
def jparse (s : String) : Option Jv :=
  let cs := s.toList
  match parseValue (cs.length + 1) cs with
  | none => none
  | some (v, rest) => if (skipWs rest).isEmpty then some v else none

/-- Escape a string for JSON output (quote and backslash; the control
characters used by the model). -/
def jescape (s : String) : String :=
  s.toList.foldl
    (fun acc c =>
      if c = '"' then acc ++ "\\\""
      else if c = '\\' then acc ++ "\\\\"
      else if c = '\n' then acc ++ "\\n"
      else if c = '\t' then acc ++ "\\t"
      else if c = '\r' then acc ++ "\\r"
      else acc.push c)
    ""

mutual

/-- Model of the platform `JSON.stringify` (compact rendering; see the
module note). `undefined` has no JSON rendering and does not occur in the
values the source serializes. -/
def jstringify : Jv → String
  | .undefined => "null"
  | .null => "null"
  | .bool b => if b then "true" else "false"
  | .num n => toString n
  | .str s => "\"" ++ jescape s ++ "\""
  | .arr vs => "[" ++ jstringifyItems vs ++ "]"
  | .obj fs => String.singleton lbrace ++ jstringifyFields fs ++ String.singleton rbrace

/-- Comma-separated renderings of array items. -/
def jstringifyItems : List Jv → String
  | [] => ""
  | [v] => jstringify v
  | v :: vs => jstringify v ++ "," ++ jstringifyItems vs

/-- Comma-separated renderings of object fields. -/
def jstringifyFields : List (String × Jv) → String
  | [] => ""
  | [(k, v)] => "\"" ++ jescape k ++ "\":" ++ jstringify v
  | (k, v) :: fs => "\"" ++ jescape k ++ "\":" ++ jstringify v ++ "," ++ jstringifyFields fs

end

/-! ## Prompt builders (Prompt Builder component)

Embedded from `buildSystemPrompt` / `buildUserPrompt` and the inline prompt
construction of the `/api/refine` handler. -/

/-- Embeds `buildSystemPrompt()` of the two-tier server: the fresh-generation
system instruction, verbatim. -/
def buildSystemPrompt : String :=
  String.intercalate "\n" [
    "You are an expert resume writer optimizing resumes for ATS systems.",
    "Generate a concise, accomplishment-driven resume based on the candidate's background and the target role.",
    "CRITICAL: The resume MUST fit on EXACTLY ONE PAGE when rendered. Aim to fill 95-100% of the page.",
    "Return ONLY strict JSON matching the provided schema. No prose outside JSON.",
    "Guidelines:",
    "- Use short, impact-focused bullet points starting with strong verbs.",
    "- Quantify results where possible (%, $, time saved).",
    "- Prioritize keywords relevant to the target job description.",
    "- Avoid flowery language, keep sentences scannable.",
    "- Never invent facts beyond the candidate input; fill unknowns with best-effort from about me.",
    "- Target 3-5 experience items with 3-4 bullets each for optimal one-page fit.",
    "- IMPORTANT: For experiences at \"Oracle\" and \"UC Berkeley Consulting Club\", include ONLY ONE short, concise bullet point each.",
    "- IMPORTANT: In the projects section, include ONLY the \"Original Joe's\" project.",
    "- Keep summary to 2-3 sentences maximum.",
    "- Be concise but comprehensive - every word should add value."
  ]

/-- The TypeScript-like schema template object serialized into the user
prompt by `buildUserPrompt`. -/
def promptSchema : Jv :=
  .obj [
    ("name", .str "string"),
    ("title", .str "string"),
    ("contact", .obj [
      ("email", .str "string?"),
      ("phone", .str "string?"),
      ("location", .str "string?"),
      ("website", .str "string?"),
      ("linkedin", .str "string?"),
      ("github", .str "string?")
    ]),
    ("summary", .str "string"),
    ("skills", .obj [
      ("core", .arr [.str "string"]),
      ("tools", .arr [.str "string?"]),
      ("other", .arr [.str "string?"])
    ]),
    ("experience", .arr [.obj [
      ("company", .str "string"),
      ("role", .str "string"),
      ("location", .str "string?"),
      ("startDate", .str "string?"),
      ("endDate", .str "string?"),
      ("bullets", .arr [.str "string"])
    ]]),
    ("projects", .arr [.obj [
      ("name", .str "string"),
      ("description", .str "string"),
      ("bullets", .arr [.str "string?"]),
      ("link", .str "string?"),
      ("technologies", .arr [.str "string?"])
    ]]),
    ("education", .arr [.obj [
      ("school", .str "string"),
      ("degree", .str "string?"),
      ("graduationDate", .str "string?"),
      ("details", .arr [.str "string?"])
    ]]),
    ("certifications", .arr [.str "string?"])
  ]

/-- Embeds `buildUserPrompt(aboutMe, targetText)`: the fresh-generation user
instruction, concatenating the about-me text, the target text and the
serialized schema template. -/
def buildUserPrompt (aboutMe targetText : String) : String :=
  String.intercalate "\n" [
    "ABOUT_ME:",
    aboutMe,
    "",
    "TARGET_COMPANY_AND_JOB:",
    targetText,
    "",
    "Output strict JSON for this TypeScript-like schema:",
    jstringify promptSchema,
    "",
    "Rules:",
    "- Return JSON only. No backticks. No commentary.",
    "- Keep bullet items crisp, 1 line each.",
    "- Align content with target role keywords."
  ]

/-- The refinement system instruction built inline in the `/api/refine`
handler, verbatim. -/
def refineSystemPrompt : String :=
  String.intercalate "\n" [
    "You are an expert resume writer refining a resume to fit exactly one page.",
    "Your task is to adjust the existing resume based on feedback about its length.",
    "Return ONLY strict JSON matching the provided schema. No prose outside JSON.",
    "Guidelines:",
    "- When told to CONDENSE: shorten bullet points, reduce wordiness, combine similar points, remove less impactful items.",
    "- When told to EXPAND: elaborate on achievements, add quantifiable details, expand descriptions.",
    "- Keep the same structure and sections, just adjust content length.",
    "- Preserve all key accomplishments and quantifiable results.",
    "- Maintain professional tone and ATS optimization."
  ]

/-- The refinement user instruction built inline in the `/api/refine`
handler: the prior resume serialized as JSON followed by the feedback. -/
def refineUserPrompt (priorResume : Jv) (feedback : String) : String :=
  String.intercalate "\n" [
    "Current resume (JSON):",
    jstringify priorResume,
    "",
    "FEEDBACK:",
    feedback,
    "",
    "Return the refined resume as strict JSON only. No backticks. No commentary."
  ]

/-! ## Generation Client (two-tier provider strategy)

Embedded from `generateWithOpenAI` and the identical two-tier block of the
`/api/refine` handler. The external OpenAI SDK is modelled as a stub
mapping each outgoing request to an outcome. A tier-1 request additionally
carries the formal JSON schema, temperature 1 and `max_output_tokens` 2000;
those parameters are constants determined by the tier, so the request
record carries the varying data: the system text, the user text and the
tier. -/

/-- Which provider call style a request uses: `schema` is the
schema-constrained `responses.create` call (tier 1), `jsonMode` the
free-form JSON-mode `chat.completions.create` call (tier 2). -/
inductive Tier where
  | schema : Tier
  | jsonMode : Tier
deriving DecidableEq, Repr

/-- One outgoing provider invocation, as observed at the SDK boundary. -/
structure ProviderRequest where
  system : String
  user : String
  tier : Tier
deriving DecidableEq, Repr

/-- Outcome of one SDK call: `Except.error msg` models the SDK call
throwing (provider rejection, network failure, SDK-enforced timeout);
`Except.ok none` models a response whose textual payload is JavaScript
`null`/`undefined`; `Except.ok (some s)` a textual payload `s`. -/
abbrev ProviderCallResult := Except String (Option String)

/-- A provider stub: the SDK boundary as a function from outgoing requests
to outcomes. -/
abbrev ProviderStub := ProviderRequest → ProviderCallResult

/-- Tier-1 payload extraction
`(response as any).output_text ?? ...output...text ?? '\x7b\x7d'`:
nullish coalescing, so a present empty string is kept. -/
def respText : Option String → String
  | none => "\x7b\x7d"
  | some s => s

/-- Tier-2 payload extraction
`completion.choices[0]?.message?.content || '\x7b\x7d'`: `||`, so a null or
empty content is replaced by the empty-object literal. -/
def chatContent : Option String → String
  | none => "\x7b\x7d"
  | some s => if strEmpty s then "\x7b\x7d" else s

/-- Embeds `const useResponses = /^gpt-5/i.test(OPENAI_MODEL)`: whether the
configured model name starts with `gpt-5` up to letter case, selecting the
schema-constrained call style. -/
def useResponses (model : String) : Bool :=
  (model.toList.take 5).map Char.toLower == ['g', 'p', 't', '-', '5']

/-- A failure escaping the generation pipeline as a JavaScript exception:
`thrown` from a tier-2 SDK call throwing, `parseError raw` from
`JSON.parse` throwing a `SyntaxError` on the tier-2 content `raw`. -/
inductive GenFailure where
  | thrown : String → GenFailure
  | parseError : String → GenFailure
deriving DecidableEq, Repr

/-- Whether a tier-1 call outcome takes the fallback path: the SDK call
threw, or its payload fails to parse as JSON (the `JSON.parse` inside the
`try` throws). -/
def tier1Failed (r : ProviderCallResult) : Bool :=
  match r with
  | .error _ => true
  | .ok o => (jparse (respText o)).isNone

/-- The tier-2 call both pipelines share: invoke the JSON-mode endpoint,
extract the content with its `|| '\x7b\x7d'` default, and parse it; a throw of
the SDK call or of `JSON.parse` escapes. -/
def tier2Call (stub : ProviderStub) (system user : String) : Except GenFailure Jv :=
  match stub ⟨system, user, .jsonMode⟩ with
  | .error msg => .error (.thrown msg)
  | .ok o =>
    match jparse (chatContent o) with
    | some v => .ok v
    | none => .error (.parseError (chatContent o))

/-- The two-tier strategy shared verbatim by `generateWithOpenAI` and the
`/api/refine` handler: when `useResponses`, try the schema-constrained
call and parse its payload inside a `try`, falling back to a single
JSON-mode call on any throw; otherwise only the JSON-mode call is made.
Returns the parsed value or the escaping exception, together with the
ordered list of provider invocations performed. -/
def twoTierGenerate (model : String) (stub : ProviderStub)
    (system user : String) : Except GenFailure Jv × List ProviderRequest :=
  if useResponses model then
    match stub ⟨system, user, .schema⟩ with
    | .ok o =>
      match jparse (respText o) with
      | some v => (.ok v, [⟨system, user, .schema⟩])
      | none => (tier2Call stub system user,
                 [⟨system, user, .schema⟩, ⟨system, user, .jsonMode⟩])
    | .error _ => (tier2Call stub system user,
                   [⟨system, user, .schema⟩, ⟨system, user, .jsonMode⟩])
  else (tier2Call stub system user, [⟨system, user, .jsonMode⟩])

/-- Embeds `generateWithOpenAI(aboutMe, targetText)`: builds the fresh-generation
prompts and runs the two-tier strategy. -/
def generateWithOpenAI (model : String) (stub : ProviderStub)
    (aboutMe targetText : String) : Except GenFailure Jv × List ProviderRequest :=
  twoTierGenerate model stub buildSystemPrompt (buildUserPrompt aboutMe targetText)

/-- The refinement pipeline of the `/api/refine` handler: builds the
refinement prompts and runs the identical two-tier strategy. -/
def refineWithOpenAI (model : String) (stub : ProviderStub)
    (priorResume : Jv) (feedback : String) : Except GenFailure Jv × List ProviderRequest :=
  twoTierGenerate model stub refineSystemPrompt (refineUserPrompt priorResume feedback)

/-! ## Response Normalizer -/

/-- The two best-effort sanity-default assignments both handlers run on the
parsed value before responding:
`parsed.experience = parsed.experience || []` and
`parsed.skills = parsed.skills || \x7b core: [] \x7d`.
On an object the assignments read each property and replace it exactly when
it is falsy. On an array the assignments succeed as expando properties,
which JSON serialization of the response then drops, so the value is
returned unchanged. On any other value the first assignment throws a
`TypeError` (strict-mode property write on a primitive, or a read on
`null`), which the route's `catch` turns into a 500 response. -/
def normalizeParsed : Jv → Except String Jv
  | .obj fs =>
    let e := lookupField fs "experience"
    let fs1 := setField fs "experience" (if truthy e then e else .arr [])
    let sk := lookupField fs1 "skills"
    let fs2 := setField fs1 "skills" (if truthy sk then sk else .obj [("core", .arr [])])
    .ok (.obj fs2)
  | .arr vs => .ok (.arr vs)
  | _ => .error "TypeError: cannot set properties of a non-object value"

/-! ## Generation Service (route handlers)

Embedded from `app.post('/api/generate')` and `app.post('/api/refine')` of
the two-tier server. The HTTP outcome is modelled by `ApiOut`; environment
state read by the handlers (model name, API key, the about-me file on
disk) is the `GenEnv` record. -/

/-- The HTTP response a handler produces: `ok` is `res.json(\x7b resume \x7d)`,
`badRequest` is `res.status(400).json(\x7b error \x7d)` and `serverError` is
`res.status(500).json(\x7b error \x7d)`. -/
inductive ApiOut where
  | ok : Jv → ApiOut
  | badRequest : String → ApiOut
  | serverError : String → ApiOut

/-- HTTP status of a handler outcome. -/
def ApiOut.status : ApiOut → Nat
  | .ok _ => 200
  | .badRequest _ => 400
  | .serverError _ => 500

/-- The serialized JSON body of a handler outcome. An error response has
exactly one field, `error`; no other diagnostic data is attached. -/
def ApiOut.body : ApiOut → Jv
  | .ok r => .obj [("resume", r)]
  | .badRequest e => .obj [("error", .str e)]
  | .serverError e => .obj [("error", .str e)]

/-- Server-side state the handlers read: the configured model name, the
`OPENAI_API_KEY` environment variable, the result of
`readAboutMeFromDisk()` (`none` models no readable non-blank `aboutme.txt`)
and the SDK boundary. -/
structure GenEnv where
  model : String
  apiKey : Option String
  disk : Option String
  provider : ProviderStub

/-- Request body of `/api/generate`; each field is an arbitrary JSON value
(`undefined` models the field being absent). -/
structure GenBody where
  targetText : Jv
  aboutMe : Jv

/-- Request body of `/api/refine`. -/
structure RefineBody where
  resume : Jv
  feedback : Jv

/-- The validation both text parameters of `/api/generate` undergo:
`!v || typeof v !== 'string' || v.trim().length === 0`. Every non-string is
rejected (falsy ones by the first test, truthy ones by the `typeof` test);
a string is rejected exactly when it trims to empty. -/
def missingTextParam (v : Jv) : Bool :=
  match v with
  | .str s => isBlankText s
  | _ => true

/-- Embeds `/api/refine`'s check on `resume`: `!resume || typeof resume !== 'object'`.
`null` is falsy and every other non-object fails the `typeof` test; note a
JSON array passes (`typeof` of an array is `'object'`). -/
def resumeShapeOk (v : Jv) : Bool :=
  match v with
  | .obj _ => true
  | .arr _ => true
  | _ => false

/-- Embeds `/api/refine`'s check on `feedback`: `!feedback || typeof feedback !== 'string'`.
A string passes exactly when non-empty (no trimming here). -/
def missingFeedback (v : Jv) : Bool :=
  match v with
  | .str s => strEmpty s
  | _ => true

/-- Embeds `!process.env.OPENAI_API_KEY`: the key is missing when the variable is
unset or the empty string. -/
def apiKeyMissing (k : Option String) : Bool :=
  match k with
  | none => true
  | some s => strEmpty s

/-- The string content of a validated text parameter. -/
def asString : Jv → String
  | .str s => s
  | _ => ""

/-- Embeds `error.message || 'Internal server error'` of the route `catch`
blocks. -/
def orInternal (m : String) : String :=
  if strEmpty m then "Internal server error" else m

/-- Modelled from the platform: the `message` of the `SyntaxError` that
`JSON.parse` throws on invalid input. The runtime produces a description of
the offending token and position; producing it is not code of this
repository, and no theorem below depends on this definition's value — only
on the fact that the route forwards exactly this message and attaches
nothing else. -/
def jsonSyntaxErrorMessage (_raw : String) : String :=
  "Unexpected token in JSON"

/-- The `message` property of a pipeline failure, as read by the route
`catch` blocks. -/
def failureMessage : GenFailure → String
  | .thrown msg => msg
  | .parseError raw => jsonSyntaxErrorMessage raw

/-- The about-me text a `/api/generate` request resolves: the body's
`aboutMe` when it passes validation, otherwise
`(await readAboutMeFromDisk()) || ''`. -/
def resolvedAbout (env : GenEnv) (b : GenBody) : String :=
  if missingTextParam b.aboutMe then env.disk.getD "" else asString b.aboutMe

/-- The response both handlers build from a pipeline outcome: on a parsed
value, run the sanity defaults and respond 200 with the document; any
exception (pipeline failure or a `TypeError` from the defaults) reaches the
route's `catch`, which responds 500 with the exception's message. The
source spells this logic out once per route; both occurrences are
line-for-line the same and are embedded once. -/
def finishGenerate (r : Except GenFailure Jv) : ApiOut :=
  match r with
  | .ok parsed =>
    match normalizeParsed parsed with
    | .ok doc => .ok doc
    | .error m => .serverError (orInternal m)
  | .error f => .serverError (orInternal (failureMessage f))

/-- Embeds `app.post('/api/generate')`: validates `targetText`; resolves the
about-me text from the body or, when the supplied one fails validation,
from disk, rejecting when the resolved text is empty (a validated body
`aboutMe` is never empty, so the emptiness test only ever fires on the
disk fallback, exactly as in the source's nested form); checks the API
key; runs the two-tier generation; finishes the response. The second
component is the ordered list of provider invocations the request
performed. -/
def handleGenerate (env : GenEnv) (b : GenBody) : ApiOut × List ProviderRequest :=
  if missingTextParam b.targetText then (.badRequest "Missing targetText", [])
  else if strEmpty (resolvedAbout env b) then (.badRequest "Missing aboutMe content", [])
  else if apiKeyMissing env.apiKey then
    (.serverError "OPENAI_API_KEY is not configured in server/.env", [])
  else
    let gr := generateWithOpenAI env.model env.provider (resolvedAbout env b) (asString b.targetText)
    (finishGenerate gr.1, gr.2)

/-- Embeds `app.post('/api/refine')`: validates `resume` and `feedback`; checks
the API key; runs the two-tier refinement; finishes the response. The
middle component is the caller's prior resume value as it stands when the
request completes: `JSON.parse` allocates a fresh value for the provider
payload, so the handler's only writes (the two sanity-default assignments)
target that fresh `parsed` value and can never alias the prior resume,
which the model expresses by threading the prior value through unchanged.
The last component is the ordered provider invocation list. -/
def handleRefine (env : GenEnv) (b : RefineBody) : ApiOut × Jv × List ProviderRequest :=
  if !resumeShapeOk b.resume then (.badRequest "Missing resume object", b.resume, [])
  else if missingFeedback b.feedback then (.badRequest "Missing feedback", b.resume, [])
  else if apiKeyMissing env.apiKey then
    (.serverError "OPENAI_API_KEY is not configured in server/.env", b.resume, [])
  else
    let gr := refineWithOpenAI env.model env.provider b.resume (asString b.feedback)
    (finishGenerate gr.1, b.resume, gr.2)

/-! ## Helper lemmas -/

theorem lookupField_setField_self (fs : List (String × Jv)) (k : String) (v : Jv) :
    lookupField (setField fs k v) k = v := by
  induction fs with
  | nil => simp [setField, lookupField]
  | cons p rest ih =>
    by_cases h : p.1 = k
    · simp [setField, h, lookupField]
    · simp [setField, h, lookupField, ih]

theorem lookupField_setField_ne (fs : List (String × Jv)) (k k' : String) (v : Jv)
    (hne : k' ≠ k) : lookupField (setField fs k v) k' = lookupField fs k' := by
  have hkk : ¬(k = k') := fun h => hne h.symm
  induction fs with
  | nil => simp [setField, lookupField, hkk]
  | cons p rest ih =>
    by_cases h : p.1 = k
    · have hp : ¬(p.1 = k') := by rw [h]; exact hkk
      simp [setField, h, lookupField, hkk, hp]
    · simp [setField, h, lookupField, ih]

theorem hasField_setField_self (fs : List (String × Jv)) (k : String) (v : Jv) :
    hasField (.obj (setField fs k v)) k = true := by
  induction fs with
  | nil => simp [setField, hasField]
  | cons p rest ih =>
    by_cases h : p.1 = k
    · simp [setField, h, hasField]
    · simp only [setField, h, if_false, hasField, List.any_cons]
      simp only [hasField] at ih
      simp [ih]

theorem hasField_setField_of (fs : List (String × Jv)) (k k' : String) (v : Jv)
    (h : hasField (.obj fs) k' = true) : hasField (.obj (setField fs k v)) k' = true := by
  induction fs with
  | nil => simp [hasField] at h
  | cons p rest ih =>
    by_cases hpk : p.1 = k
    · simp only [hasField, List.any_cons, Bool.or_eq_true] at h
      rcases h with h | h
      · simp only [setField, hpk, if_true, hasField, List.any_cons, Bool.or_eq_true]
        left
        simp at h ⊢
        rw [← hpk, h]
      · simp [setField, hpk, hasField, h]
    · simp only [hasField, List.any_cons, Bool.or_eq_true] at h
      rcases h with h | h
      · simp [setField, hpk, hasField, h]
      · have := ih (by simpa [hasField] using h)
        simp only [hasField] at this
        simp [setField, hpk, hasField, this]

theorem normalizeParsed_obj (fs : List (String × Jv)) :
    normalizeParsed (.obj fs) =
      .ok (.obj
        (setField
          (setField fs "experience"
            (if truthy (lookupField fs "experience") then lookupField fs "experience"
             else .arr []))
          "skills"
          (if truthy (lookupField (setField fs "experience"
              (if truthy (lookupField fs "experience") then lookupField fs "experience"
               else .arr [])) "skills")
           then lookupField (setField fs "experience"
              (if truthy (lookupField fs "experience") then lookupField fs "experience"
               else .arr [])) "skills"
           else .obj [("core", .arr [])]))) := rfl

theorem normalizeParsed_ok_obj_fields (v : Jv) (fs' : List (String × Jv))
    (h : normalizeParsed v = .ok (.obj fs')) :
    hasField (.obj fs') "experience" = true ∧ hasField (.obj fs') "skills" = true := by
  cases v with
  | obj fs =>
    rw [normalizeParsed_obj] at h
    have hfs : (Jv.obj fs' : Jv) = _ := (Except.ok.injEq _ _).mp h.symm
    have hfs' := (Jv.obj.injEq _ _).mp hfs
    subst hfs'
    constructor
    · exact hasField_setField_of _ _ _ _ (hasField_setField_self _ _ _)
    · exact hasField_setField_self _ _ _
  | arr vs =>
    simp only [normalizeParsed, Except.ok.injEq] at h
    exact absurd h (by simp)
  | undefined => simp [normalizeParsed] at h
  | null => simp [normalizeParsed] at h
  | bool b => simp [normalizeParsed] at h
  | num n => simp [normalizeParsed] at h
  | str s => simp [normalizeParsed] at h

theorem finishGenerate_ok (r : Except GenFailure Jv) (doc : Jv)
    (h : finishGenerate r = .ok doc) :
    ∃ parsed, r = .ok parsed ∧ normalizeParsed parsed = .ok doc := by
  cases r with
  | error f => simp [finishGenerate] at h
  | ok parsed =>
    refine ⟨parsed, rfl, ?_⟩
    simp only [finishGenerate] at h
    split at h
    · next d hd =>
      injection h with h'
      rw [hd, h']
    · next m hm => cases h

theorem handleGenerate_ok_inv (env : GenEnv) (b : GenBody) (doc : Jv)
    (log : List ProviderRequest) (h : handleGenerate env b = (.ok doc, log)) :
    ∃ parsed, normalizeParsed parsed = .ok doc := by
  by_cases h1 : missingTextParam b.targetText = true
  · simp only [handleGenerate, h1] at h
    simp at h
  · rw [Bool.not_eq_true] at h1
    by_cases h2 : strEmpty (resolvedAbout env b) = true
    · simp only [handleGenerate, h1, h2] at h
      simp at h
    · rw [Bool.not_eq_true] at h2
      by_cases h3 : apiKeyMissing env.apiKey = true
      · simp only [handleGenerate, h1, h2, h3] at h
        simp at h
      · rw [Bool.not_eq_true] at h3
        simp only [handleGenerate, h1, h2, h3, Bool.false_eq_true, if_false] at h
        have h4 : finishGenerate (generateWithOpenAI env.model env.provider
            (resolvedAbout env b) (asString b.targetText)).1 = .ok doc :=
          congrArg Prod.fst h
        obtain ⟨parsed, _, hn⟩ := finishGenerate_ok _ _ h4
        exact ⟨parsed, hn⟩

theorem handleRefine_ok_inv (env : GenEnv) (b : RefineBody) (doc prior : Jv)
    (log : List ProviderRequest) (h : handleRefine env b = (.ok doc, prior, log)) :
    ∃ parsed, normalizeParsed parsed = .ok doc := by
  by_cases h1 : resumeShapeOk b.resume = true
  · by_cases h2 : missingFeedback b.feedback = true
    · simp only [handleRefine, h1, h2] at h
      simp at h
    · rw [Bool.not_eq_true] at h2
      by_cases h3 : apiKeyMissing env.apiKey = true
      · simp only [handleRefine, h1, h2, h3] at h
        simp at h
      · rw [Bool.not_eq_true] at h3
        simp only [handleRefine, h1, h2, h3, Bool.not_true, Bool.false_eq_true, if_false] at h
        have h4 : finishGenerate (refineWithOpenAI env.model env.provider
            b.resume (asString b.feedback)).1 = .ok doc :=
          congrArg Prod.fst h
        obtain ⟨parsed, _, hn⟩ := finishGenerate_ok _ _ h4
        exact ⟨parsed, hn⟩
  · rw [Bool.not_eq_true] at h1
    simp only [handleRefine, h1] at h
    simp at h

theorem validText_not_empty (v : Jv) (h : missingTextParam v = false) :
    strEmpty (asString v) = false := by
  cases v with
  | str s =>
    simp only [missingTextParam, isBlankText] at h
    simp only [asString, strEmpty]
    cases hl : s.toList with
    | nil => rw [hl] at h; simp at h
    | cons c cs => simp
  | undefined => simp [missingTextParam] at h
  | null => simp [missingTextParam] at h
  | bool b => simp [missingTextParam] at h
  | num n => simp [missingTextParam] at h
  | arr vs => simp [missingTextParam] at h
  | obj fs => simp [missingTextParam] at h

theorem tier2Call_parsed (stub : ProviderStub) (s u : String) (o2 : Option String)
    (doc : Jv) (h2 : stub ⟨s, u, .jsonMode⟩ = .ok o2)
    (h3 : jparse (chatContent o2) = some doc) :
    tier2Call stub s u = .ok doc := by
  simp only [tier2Call, h2, h3]

theorem tier2Call_unparseable (stub : ProviderStub) (s u : String) (o2 : Option String)
    (h2 : stub ⟨s, u, .jsonMode⟩ = .ok o2)
    (h3 : jparse (chatContent o2) = none) :
    tier2Call stub s u = .error (.parseError (chatContent o2)) := by
  simp only [tier2Call, h2, h3]

theorem tier2Call_thrown (stub : ProviderStub) (s u : String) (msg : String)
    (h2 : stub ⟨s, u, .jsonMode⟩ = .error msg) :
    tier2Call stub s u = .error (.thrown msg) := by
  simp only [tier2Call, h2]

theorem twoTierGenerate_fallback (model : String) (stub : ProviderStub) (s u : String)
    (hm : useResponses model = true)
    (h1 : tier1Failed (stub ⟨s, u, .schema⟩) = true) :
    twoTierGenerate model stub s u =
      (tier2Call stub s u, [⟨s, u, .schema⟩, ⟨s, u, .jsonMode⟩]) := by
  unfold twoTierGenerate
  cases hs : stub ⟨s, u, Tier.schema⟩ with
  | error msg => simp [hm, hs]
  | ok o =>
    simp only [tier1Failed, hs, Option.isNone_iff_eq_none] at h1
    simp [hm, hs, h1]

theorem twoTierGenerate_single (model : String) (stub : ProviderStub) (s u : String)
    (hm : useResponses model = false) :
    twoTierGenerate model stub s u = (tier2Call stub s u, [⟨s, u, .jsonMode⟩]) := by
  simp [twoTierGenerate, hm]

theorem twoTierGenerate_schema_iff (model : String) (stub : ProviderStub) (s u : String) :
    ((twoTierGenerate model stub s u).2.any (fun rq => rq.tier == Tier.schema))
      = useResponses model := by
  unfold twoTierGenerate
  cases hm : useResponses model with
  | false => simp [hm]
  | true =>
    cases hs : stub ⟨s, u, Tier.schema⟩ with
    | error msg => simp [hm, hs]
    | ok o =>
      cases hj : jparse (respText o) with
      | some v => simp [hm, hs, hj]
      | none => simp [hm, hs, hj]

/-! ## Claims -/

/-- C1: for every generate call in which the schema-constrained (tier-1)
provider call is rejected or its payload fails to parse as JSON
(`tier1Failed`), the operation falls back to a single tier-2 free-form
JSON-mode call with the same system and user text, returns the document
parsed from the tier-2 payload, and exactly two provider invocations occur
in total (never more): the invocation log is exactly the schema-constrained
request followed by the JSON-mode request, both carrying the same
`buildSystemPrompt` / `buildUserPrompt aboutMe targetText` texts. -/
theorem generate_tier_fallback (model : String) (stub : ProviderStub)
    (aboutMe targetText : String) (o2 : Option String) (doc : Jv)
    (hm : useResponses model = true)
    (h1 : tier1Failed (stub ⟨buildSystemPrompt, buildUserPrompt aboutMe targetText, .schema⟩) = true)
    (h2 : stub ⟨buildSystemPrompt, buildUserPrompt aboutMe targetText, .jsonMode⟩ = .ok o2)
    (h3 : jparse (chatContent o2) = some doc) :
    generateWithOpenAI model stub aboutMe targetText =
      (.ok doc,
       [⟨buildSystemPrompt, buildUserPrompt aboutMe targetText, .schema⟩,
        ⟨buildSystemPrompt, buildUserPrompt aboutMe targetText, .jsonMode⟩]) := by
  unfold generateWithOpenAI
  rw [twoTierGenerate_fallback _ _ _ _ hm h1, tier2Call_parsed _ _ _ _ _ h2 h3]

/-- Witness for C1 at a concrete stub that rejects only the
schema-constrained call. -/
theorem generate_tier_fallback_witness :
    generateWithOpenAI "gpt-5"
      (fun rq => match rq.tier with
        | .schema => .error "schema mode rejected"
        | .jsonMode => .ok (some "\x7b\x7d"))
      "my background" "target job" =
      (.ok (.obj []),
       [⟨buildSystemPrompt, buildUserPrompt "my background" "target job", .schema⟩,
        ⟨buildSystemPrompt, buildUserPrompt "my background" "target job", .jsonMode⟩]) :=
  generate_tier_fallback "gpt-5" _ "my background" "target job" (some "\x7b\x7d") (.obj [])
    (by decide) rfl rfl rfl

/-- C4: for every generate call whose target-text input is absent, not a
string, or empty after trimming (`missingTextParam`), the operation fails
with the missing-input rejection (HTTP 400, `Missing targetText`) and the
external provider is never invoked (empty invocation log). -/
theorem generate_missing_target (env : GenEnv) (b : GenBody)
    (h : missingTextParam b.targetText = true) :
    handleGenerate env b = (.badRequest "Missing targetText", []) := by
  simp only [handleGenerate, h, if_true]

/-- Witness for C4 at a blank target text. -/
theorem generate_missing_target_witness :
    handleGenerate ⟨"gpt-5", some "key", none, fun _ => .ok (some "\x7b\x7d")⟩
      ⟨.str "   ", .str "my background"⟩ = (.badRequest "Missing targetText", []) :=
  generate_missing_target _ _ rfl

/-- C7: for every refine call whose prior-resume input fails the basic
shape check (`resumeShapeOk`, the source's `!resume || typeof resume !==
'object'`), the operation fails with the malformed-input rejection (HTTP
400, `Missing resume object`) before anything is sent to the provider
(empty invocation log); likewise an absent, non-string or empty feedback
string fails (HTTP 400, `Missing feedback`) before any provider call. -/
theorem refine_validation_guards :
    (∀ (env : GenEnv) (b : RefineBody), resumeShapeOk b.resume = false →
      handleRefine env b = (.badRequest "Missing resume object", b.resume, []))
  ∧ (∀ (env : GenEnv) (b : RefineBody), resumeShapeOk b.resume = true →
      missingFeedback b.feedback = true →
      handleRefine env b = (.badRequest "Missing feedback", b.resume, [])) := by
  constructor
  · intro env b h
    simp only [handleRefine, h, Bool.not_false, if_true]
  · intro env b h hf
    simp only [handleRefine, h, Bool.not_true, Bool.false_eq_true, if_false, hf, if_true]

/-- Witness for C7: a string prior resume and an empty feedback, each
rejected without a provider invocation. -/
theorem refine_validation_guards_witness :
    handleRefine ⟨"gpt-5", some "key", none, fun _ => .ok (some "\x7b\x7d")⟩
        ⟨.str "not an object", .str "shorten"⟩
      = (.badRequest "Missing resume object", .str "not an object", [])
  ∧ handleRefine ⟨"gpt-5", some "key", none, fun _ => .ok (some "\x7b\x7d")⟩
        ⟨.obj [("name", .str "A")], .str ""⟩
      = (.badRequest "Missing feedback", .obj [("name", .str "A")], []) :=
  ⟨refine_validation_guards.1 _ _ rfl, refine_validation_guards.2 _ _ rfl rfl⟩

/-- C8: for every refine call, the prior ResumeDocument passed in is never
mutated: whether the operation succeeds or fails, the caller's prior value
after the request (the middle component of `handleRefine`, which threads
the prior through every step; the handler's only writes target the value
freshly allocated by `JSON.parse` of the provider payload) equals the value
passed in, every field unchanged. -/
theorem refine_preserves_prior (env : GenEnv) (b : RefineBody) :
    (handleRefine env b).2.1 = b.resume := by
  unfold handleRefine
  split
  · rfl
  · split
    · rfl
    · split
      · rfl
      · rfl

/-- C2 (counterexample): the claim that every successful generate call
returns a document with `skills.core` present is false on the code: the
sanity defaults replace `skills` only when the whole `skills` value is
falsy, so a provider payload carrying a truthy `skills` object without
`core` is returned with `skills.core` still absent. Concretely, with the
tier-2 payload `\x7b"skills":\x7b\x7d\x7d` the call succeeds and the
returned document's `skills.core` is `undefined`. -/
theorem generate_success_core_absent :
    (handleGenerate ⟨"gpt-4o-mini", some "key", none,
        fun _ => .ok (some "\x7b\"skills\":\x7b\x7d\x7d")⟩
        ⟨.str "target job", .str "my background"⟩).1
      = .ok (.obj [("skills", .obj []), ("experience", .arr [])])
  ∧ getField (getField (.obj [("skills", .obj []), ("experience", .arr [])]) "skills") "core"
      = .undefined :=
  ⟨rfl, rfl⟩

/-- C2 (amended): for every generate or refine call that succeeds and whose
returned document is a JSON object, the result has passed the sanity
defaults before being returned, so its `experience` and `skills` fields are
present; `skills.core` itself is guaranteed only when the parsed `skills`
was falsy (it is then defaulted to an object whose `core` is the empty
list), as the counterexample shows. -/
theorem success_has_required_collections :
    (∀ (env : GenEnv) (b : GenBody) (doc : Jv) (log : List ProviderRequest)
       (fs : List (String × Jv)),
       handleGenerate env b = (.ok doc, log) → doc = .obj fs →
       hasField doc "experience" = true ∧ hasField doc "skills" = true)
  ∧ (∀ (env : GenEnv) (b : RefineBody) (doc prior : Jv) (log : List ProviderRequest)
       (fs : List (String × Jv)),
       handleRefine env b = (.ok doc, prior, log) → doc = .obj fs →
       hasField doc "experience" = true ∧ hasField doc "skills" = true) := by
  constructor
  · intro env b doc log fs h hobj
    obtain ⟨parsed, hn⟩ := handleGenerate_ok_inv env b doc log h
    subst hobj
    exact normalizeParsed_ok_obj_fields parsed fs hn
  · intro env b doc prior log fs h hobj
    obtain ⟨parsed, hn⟩ := handleRefine_ok_inv env b doc prior log h
    subst hobj
    exact normalizeParsed_ok_obj_fields parsed fs hn

/-- Witness for C2 (amended): concrete successful generate and refine
calls whose returned objects carry both required collection fields. -/
theorem success_has_required_collections_witness :
    (hasField (.obj [("experience", .arr []), ("skills", .obj [("core", .arr [])])])
        "experience" = true
     ∧ hasField (.obj [("experience", .arr []), ("skills", .obj [("core", .arr [])])])
        "skills" = true)
  ∧ (hasField (.obj [("name", .str "A"), ("experience", .arr []),
        ("skills", .obj [("core", .arr [])])]) "experience" = true
     ∧ hasField (.obj [("name", .str "A"), ("experience", .arr []),
        ("skills", .obj [("core", .arr [])])]) "skills" = true) :=
  ⟨success_has_required_collections.1
      ⟨"gpt-4o-mini", some "key", none, fun _ => .ok (some "\x7b\x7d")⟩
      ⟨.str "target job", .str "my background"⟩ _ _ _ rfl rfl,
   success_has_required_collections.2
      ⟨"gpt-4o-mini", some "key", none, fun _ => .ok (some "\x7b\"name\":\"A\"\x7d")⟩
      ⟨.obj [("name", .str "A")], .str "shorten"⟩ _ _ _ _ rfl rfl⟩

/-- C3 (counterexample): the claim that a generate call in which both tiers
fail to produce parseable JSON carries the raw unparsed tier-2 text for
diagnostics is false on the two-tier server: the route's `catch` responds
500 with a body holding only the thrown `SyntaxError`'s message (the
platform-produced description of the offending token, modelled by
`jsonSyntaxErrorMessage`), and no `raw` field is attached — unlike the
legacy single-tier server (`src/server/src/index.ts`), which responds 502
with `\x7b error, raw \x7d`. Concretely, with unparseable payloads
`not json` (tier 1) and `nope` (tier 2), the response body is exactly
`\x7b "error": ... \x7d` and its `raw` field is `undefined`. -/
theorem generate_invalid_output_no_raw :
    ApiOut.body (handleGenerate ⟨"gpt-5", some "key", none,
        fun rq => match rq.tier with
          | .schema => .ok (some "not json")
          | .jsonMode => .ok (some "nope")⟩
        ⟨.str "target job", .str "my background"⟩).1
      = .obj [("error", .str (jsonSyntaxErrorMessage "nope"))]
  ∧ getField (ApiOut.body (handleGenerate ⟨"gpt-5", some "key", none,
        fun rq => match rq.tier with
          | .schema => .ok (some "not json")
          | .jsonMode => .ok (some "nope")⟩
        ⟨.str "target job", .str "my background"⟩).1) "raw"
      = .undefined :=
  ⟨rfl, rfl⟩

/-- C3 (amended): for every generate call with validated inputs in which
the tier-1 call is attempted and fails (`tier1Failed`) and the tier-2
payload also fails to parse, the operation fails with HTTP 500 after
exactly the two provider invocations; the failure surfaces the `JSON.parse`
`SyntaxError` message for the tier-2 content, and the response attaches no
`raw` field (the raw tier-2 text is not carried). -/
theorem generate_both_tiers_unparseable (env : GenEnv) (b : GenBody) (o2 : Option String)
    (ht : missingTextParam b.targetText = false)
    (ha : missingTextParam b.aboutMe = false)
    (hk : apiKeyMissing env.apiKey = false)
    (hm : useResponses env.model = true)
    (h1 : tier1Failed (env.provider ⟨buildSystemPrompt,
        buildUserPrompt (asString b.aboutMe) (asString b.targetText), .schema⟩) = true)
    (h2 : env.provider ⟨buildSystemPrompt,
        buildUserPrompt (asString b.aboutMe) (asString b.targetText), .jsonMode⟩ = .ok o2)
    (h3 : jparse (chatContent o2) = none) :
    handleGenerate env b
      = (.serverError (orInternal (jsonSyntaxErrorMessage (chatContent o2))),
         [⟨buildSystemPrompt, buildUserPrompt (asString b.aboutMe) (asString b.targetText), .schema⟩,
          ⟨buildSystemPrompt, buildUserPrompt (asString b.aboutMe) (asString b.targetText), .jsonMode⟩])
    ∧ getField (ApiOut.body (handleGenerate env b).1) "raw" = .undefined := by
  have habout : resolvedAbout env b = asString b.aboutMe := by
    simp only [resolvedAbout, ha, Bool.false_eq_true, if_false]
  have hne : strEmpty (resolvedAbout env b) = false := by
    rw [habout]
    exact validText_not_empty _ ha
  have hmain : handleGenerate env b
      = (.serverError (orInternal (jsonSyntaxErrorMessage (chatContent o2))),
         [⟨buildSystemPrompt, buildUserPrompt (asString b.aboutMe) (asString b.targetText), .schema⟩,
          ⟨buildSystemPrompt, buildUserPrompt (asString b.aboutMe) (asString b.targetText), .jsonMode⟩]) := by
    simp only [handleGenerate, ht, hne, hk, Bool.false_eq_true, if_false]
    rw [habout]
    unfold generateWithOpenAI
    rw [twoTierGenerate_fallback _ _ _ _ hm h1, tier2Call_unparseable _ _ _ _ h2 h3]
    rfl
  refine ⟨hmain, ?_⟩
  rw [hmain]
  rfl

/-- Witness for C3 (amended) at the concrete both-tiers-unparseable stub. -/
theorem generate_both_tiers_unparseable_witness :
    handleGenerate ⟨"gpt-5", some "key", none,
        fun rq => match rq.tier with
          | .schema => .ok (some "also not json")
          | .jsonMode => .ok (some "still not json")⟩
        ⟨.str "target job", .str "my background"⟩
      = (.serverError (orInternal (jsonSyntaxErrorMessage (chatContent (some "still not json")))),
         [⟨buildSystemPrompt, buildUserPrompt "my background" "target job", .schema⟩,
          ⟨buildSystemPrompt, buildUserPrompt "my background" "target job", .jsonMode⟩])
    ∧ getField (ApiOut.body (handleGenerate ⟨"gpt-5", some "key", none,
        fun rq => match rq.tier with
          | .schema => .ok (some "also not json")
          | .jsonMode => .ok (some "still not json")⟩
        ⟨.str "target job", .str "my background"⟩).1) "raw" = .undefined :=
  generate_both_tiers_unparseable _ _ (some "still not json")
    rfl rfl rfl (by decide) rfl rfl rfl

/-- C5 (counterexample): the claim that normalization replaces an
`experience` field that is absent **or not a list** with the empty list is
false on the code: the sanity default `parsed.experience =
parsed.experience || []` keeps any truthy value, list or not. Concretely, a
parsed object whose `experience` is the string `abc` is returned with that
string kept, not replaced by the empty list. -/
theorem normalize_keeps_truthy_nonlist :
    normalizeParsed (.obj [("experience", .str "abc")])
      = .ok (.obj [("experience", .str "abc"), ("skills", .obj [("core", .arr [])])])
  ∧ Jv.str "abc" ≠ Jv.arr [] :=
  ⟨rfl, by intro h; cases h⟩

/-- C5 (amended): for every raw parsed JSON object, the sanity-default pass
is pure and total (it always succeeds) and replaces each of the two fields
exactly when the field's value is falsy (absent, `null`, `false`, `0` or
the empty string): a falsy `experience` becomes the empty list and a falsy
`skills` becomes `\x7b core: [] \x7d`, while any truthy value — list or
not — is kept unchanged. -/
theorem normalize_defaults_falsy_fields (fs : List (String × Jv)) (doc : Jv)
    (h : normalizeParsed (.obj fs) = .ok doc) :
    (truthy (lookupField fs "experience") = false → getField doc "experience" = .arr [])
  ∧ (truthy (lookupField fs "experience") = true →
      getField doc "experience" = lookupField fs "experience")
  ∧ (truthy (lookupField fs "skills") = false →
      getField doc "skills" = .obj [("core", .arr [])])
  ∧ (truthy (lookupField fs "skills") = true →
      getField doc "skills" = lookupField fs "skills") := by
  rw [normalizeParsed_obj] at h
  injection h with h'
  subst h'
  refine ⟨?_, ?_, ?_, ?_⟩ <;>
    (intro hf; simp [getField, hf, lookupField_setField_ne, lookupField_setField_self])

/-- Witness for C5 (amended): a `null` `experience` is replaced by the
empty list and the absent `skills` by the defaulted object. -/
theorem normalize_defaults_falsy_fields_witness :
    getField (.obj [("experience", .arr []), ("skills", .obj [("core", .arr [])])])
        "experience" = .arr []
  ∧ getField (.obj [("experience", .arr []), ("skills", .obj [("core", .arr [])])])
        "skills" = .obj [("core", .arr [])] :=
  ⟨(normalize_defaults_falsy_fields [("experience", .null)] _ rfl).1 rfl,
   (normalize_defaults_falsy_fields [("experience", .null)] _ rfl).2.2.1 rfl⟩

/-- C9 (counterexample): the claim that for every generate call supplying a
non-empty `aboutMe` string the result depends only on the supplied
parameters is false as literally stated: a whitespace-only `aboutMe` is a
non-empty string, yet it fails the handler's validity check
(`trim().length === 0`), so the handler falls back to the persisted store.
Concretely, with `aboutMe` the one-space string, the same request fails
with `Missing aboutMe content` when no about-me file is readable and
succeeds when the store holds text — two different results from the same
supplied parameters. -/
theorem generate_blank_about_reads_store :
    (handleGenerate ⟨"gpt-4o-mini", some "key", none, fun _ => .ok (some "\x7b\x7d")⟩
        ⟨.str "target job", .str " "⟩).1
      = .badRequest "Missing aboutMe content"
  ∧ (handleGenerate ⟨"gpt-4o-mini", some "key", some "stored about-me text",
        fun _ => .ok (some "\x7b\x7d")⟩
        ⟨.str "target job", .str " "⟩).1
      = .ok (.obj [("experience", .arr []), ("skills", .obj [("core", .arr [])])])
  ∧ (" " : String) ≠ "" :=
  ⟨rfl, rfl, by decide⟩

/-- C9 (amended): the core generation operation (`generateWithOpenAI`)
takes `aboutMe` purely as a parameter and performs no storage read (its
arguments are only the model, the SDK boundary and the two texts); for
every generate call whose supplied `aboutMe` is a string that is non-empty
after trimming (the handler's validity check), the result is independent of
the persisted about-me store — sourcing `aboutMe` from the store happens
only in the boundary handler, and only when the supplied value fails that
check. -/
theorem generate_independent_of_store (model : String) (key : Option String)
    (d1 d2 : Option String) (stub : ProviderStub) (b : GenBody)
    (h : missingTextParam b.aboutMe = false) :
    handleGenerate ⟨model, key, d1, stub⟩ b = handleGenerate ⟨model, key, d2, stub⟩ b := by
  have h1 : resolvedAbout ⟨model, key, d1, stub⟩ b = asString b.aboutMe := by
    simp only [resolvedAbout, h, Bool.false_eq_true, if_false]
  have h2 : resolvedAbout ⟨model, key, d2, stub⟩ b = asString b.aboutMe := by
    simp only [resolvedAbout, h, Bool.false_eq_true, if_false]
  unfold handleGenerate
  rw [h1, h2]

/-- Witness for C9 (amended) at a concrete valid `aboutMe` and two
different store states. -/
theorem generate_independent_of_store_witness :
    handleGenerate ⟨"gpt-5", some "key", none, fun _ => .ok (some "\x7b\x7d")⟩
        ⟨.str "target job", .str "my background"⟩
      = handleGenerate ⟨"gpt-5", some "key", some "a different stored text",
          fun _ => .ok (some "\x7b\x7d")⟩
        ⟨.str "target job", .str "my background"⟩ :=
  generate_independent_of_store "gpt-5" (some "key") none (some "a different stored text")
    _ _ rfl

/-- C10: for both the generate and the refine pipeline, the
schema-constrained tier-1 call is attempted if and only if the configured
model name matches `^gpt-5` case-insensitively (`useResponses`); for any
other configured model exactly one free-form JSON-mode call is made — the
invocation log is the single JSON-mode request — and no fallback path
exists, so that single call's provider failure fails the whole operation
with the thrown error. -/
theorem model_gates_schema_tier :
    (∀ (model : String) (stub : ProviderStub) (aboutMe targetText : String),
      ((generateWithOpenAI model stub aboutMe targetText).2.any
        (fun rq => rq.tier == Tier.schema)) = useResponses model)
  ∧ (∀ (model : String) (stub : ProviderStub) (prior : Jv) (feedback : String),
      ((refineWithOpenAI model stub prior feedback).2.any
        (fun rq => rq.tier == Tier.schema)) = useResponses model)
  ∧ (∀ (model : String) (stub : ProviderStub) (aboutMe targetText : String),
      useResponses model = false →
      (generateWithOpenAI model stub aboutMe targetText).2
        = [⟨buildSystemPrompt, buildUserPrompt aboutMe targetText, .jsonMode⟩])
  ∧ (∀ (model : String) (stub : ProviderStub) (prior : Jv) (feedback : String),
      useResponses model = false →
      (refineWithOpenAI model stub prior feedback).2
        = [⟨refineSystemPrompt, refineUserPrompt prior feedback, .jsonMode⟩])
  ∧ (∀ (model : String) (stub : ProviderStub) (aboutMe targetText msg : String),
      useResponses model = false →
      stub ⟨buildSystemPrompt, buildUserPrompt aboutMe targetText, .jsonMode⟩ = .error msg →
      (generateWithOpenAI model stub aboutMe targetText).1 = .error (.thrown msg))
  ∧ (∀ (model : String) (stub : ProviderStub) (prior : Jv) (feedback msg : String),
      useResponses model = false →
      stub ⟨refineSystemPrompt, refineUserPrompt prior feedback, .jsonMode⟩ = .error msg →
      (refineWithOpenAI model stub prior feedback).1 = .error (.thrown msg)) := by
  refine ⟨?_, ?_, ?_, ?_, ?_, ?_⟩
  · intro model stub aboutMe targetText
    exact twoTierGenerate_schema_iff model stub _ _
  · intro model stub prior feedback
    exact twoTierGenerate_schema_iff model stub _ _
  · intro model stub aboutMe targetText hm
    unfold generateWithOpenAI
    rw [twoTierGenerate_single _ _ _ _ hm]
  · intro model stub prior feedback hm
    unfold refineWithOpenAI
    rw [twoTierGenerate_single _ _ _ _ hm]
  · intro model stub aboutMe targetText msg hm h2
    unfold generateWithOpenAI
    rw [twoTierGenerate_single _ _ _ _ hm]
    exact tier2Call_thrown _ _ _ _ h2
  · intro model stub prior feedback msg hm h2
    unfold refineWithOpenAI
    rw [twoTierGenerate_single _ _ _ _ hm]
    exact tier2Call_thrown _ _ _ _ h2

/-- Witness for C10: a non-`gpt-5` model makes no schema-constrained call,
performs the single JSON-mode invocation in both pipelines, and a thrown
JSON-mode call fails the whole operation. -/
theorem model_gates_schema_tier_witness :
    ((generateWithOpenAI "gpt-4o-mini" (fun _ => .ok (some "\x7b\x7d")) "my background"
        "target job").2.any (fun rq => rq.tier == Tier.schema)) = useResponses "gpt-4o-mini"
  ∧ ((refineWithOpenAI "GPT-5-turbo" (fun _ => .ok (some "\x7b\x7d")) (.obj [])
        "shorten").2.any (fun rq => rq.tier == Tier.schema)) = useResponses "GPT-5-turbo"
  ∧ (generateWithOpenAI "gpt-4o-mini" (fun _ => .error "provider down") "my background"
        "target job").2
      = [⟨buildSystemPrompt, buildUserPrompt "my background" "target job", .jsonMode⟩]
  ∧ (refineWithOpenAI "gpt-4o-mini" (fun _ => .error "provider down") (.obj [])
        "shorten").2
      = [⟨refineSystemPrompt, refineUserPrompt (.obj []) "shorten", .jsonMode⟩]
  ∧ (generateWithOpenAI "gpt-4o-mini" (fun _ => .error "provider down") "my background"
        "target job").1 = .error (.thrown "provider down")
  ∧ (refineWithOpenAI "gpt-4o-mini" (fun _ => .error "provider down") (.obj [])
        "shorten").1 = .error (.thrown "provider down") :=
  ⟨model_gates_schema_tier.1 _ _ _ _,
   model_gates_schema_tier.2.1 _ _ _ _,
   model_gates_schema_tier.2.2.1 _ _ _ _ (by decide),
   model_gates_schema_tier.2.2.2.1 _ _ _ _ (by decide),
   model_gates_schema_tier.2.2.2.2.1 _ _ _ _ _ (by decide) rfl,
   model_gates_schema_tier.2.2.2.2.2 _ _ _ _ _ (by decide) rfl⟩

end ResumeBuilder
